import Mathlib

/-!
Verification of the pynsot CLI core logic: the attribute reconciliation
algorithm (`App.process_attributes` in pynsot/app.py), the natural-key
resolution logic (`App.get_single_object`, `App.update`), the site-scoping
rebase (`App.rebase`), and the site-id option callback
(`pynsot.commands.callbacks.process_site_id`).

The embedding is shallow: Python dicts become association lists with Python
dict semantics (insertion order preserved, overwrite keeps position),
Python exceptions (KeyError / AttributeError on a misused value) become an
`Except PyErr` result, and HTTP transports become explicit function
arguments so that theorems can count calls.
-/

namespace Pynsot

/-- Python exceptions that the reconciliation code can raise:
`keyError k` models `KeyError: k` from `attrs[key]` on a missing key, and
`typeError` models the `AttributeError`/`TypeError` raised when a list
method (`append`/`remove`) is invoked on a non-list value. -/
inductive PyErr where
  | keyError (k : String)
  | typeError
deriving DecidableEq, Repr

/-- An attribute value as stored in the Python attrs dict: either a scalar
string or a list of strings (a `multi` attribute). -/
inductive AttrVal where
  | scalar (s : String)
  | vlist (l : List String)
deriving DecidableEq, Repr

/-- A Python dict of attributes, as an association list in insertion
order. -/
abbrev Attrs := List (String × AttrVal)

/-- Python `attrs.get(key)` / `key in attrs`: first binding wins (keys are
unique in a real dict). -/
def dictGet (attrs : Attrs) (k : String) : Option AttrVal :=
  match attrs with
  | [] => none
  | (k', v) :: rest => if k' = k then some v else dictGet rest k

/-- Python `attrs[key] = v`: overwrite in place if the key exists (its
position is kept), otherwise append the new binding at the end. -/
def dictSet (attrs : Attrs) (k : String) (v : AttrVal) : Attrs :=
  match attrs with
  | [] => [(k, v)]
  | (k', v') :: rest => if k' = k then (k', v) :: rest else (k', v') :: dictSet rest k v

/-- Python `attrs.pop(key)` / `attrs.pop(key, None)`: drop the binding for
`k` (a no-op when absent, which matches `pop(key, None)`; the call sites
that use bare `pop(key)` only do so when the key is known present). -/
def dictPop (attrs : Attrs) (k : String) : Attrs :=
  match attrs with
  | [] => []
  | (k', v') :: rest => if k' = k then rest else (k', v') :: dictPop rest k

/-- Python `attrs[key]`: raises `KeyError` when the key is absent. -/
def pyGetItem (attrs : Attrs) (k : String) : Except PyErr AttrVal :=
  match dictGet attrs k with
  | some v => .ok v
  | none => .error (.keyError k)

/-- Python `v in l` for a list of strings, checking equality front to
back. -/
def listHas (l : List String) (v : String) : Bool :=
  match l with
  | [] => false
  | x :: rest => if x = v then true else listHas rest v

/-- Python `l.remove(v)`: remove the first occurrence of `v` (call sites
guard with `v in l` first, so the not-found `ValueError` cannot occur). -/
def listErase (l : List String) (v : String) : List String :=
  match l with
  | [] => []
  | x :: rest => if x = v then rest else x :: listErase rest v

/-- Python `needle in hay` for strings: substring containment. -/
def strIn (needle hay : String) : Bool :=
  decide (needle.data <:+: hay.data)

/-- Python `val in attrs[key]`: list membership when the stored value is a
list; substring containment when it is a scalar string. -/
def pyIn (val : String) (v : AttrVal) : Bool :=
  match v with
  | .vlist l => listHas l val
  | .scalar s => strIn val s

/-- Extract the list from a stored value before `.append`/`.remove`; a
scalar here is outside the documented domain and raises in Python
(strings have no `append`/`remove`), modelled as `typeError`. -/
def asList (v : AttrVal) : Except PyErr (List String) :=
  match v with
  | .vlist l => .ok l
  | .scalar _ => .error .typeError

/-- Python truthiness of a stored value (`not attrs[key]`): an empty list
or an empty string is falsy. -/
def pyFalsy (v : AttrVal) : Bool :=
  match v with
  | .vlist l => l.isEmpty
  | .scalar s => s.isEmpty

/-- The attribute action passed to `process_attributes`; the Python code
receives the strings `add` / `replace` / `delete`, or `None` (modelled at
call sites as an `Option AttrAction`): any other value falls through every
branch and the edit is a no-op. -/
inductive AttrAction where
  | add
  | replace
  | delete
deriving DecidableEq, Repr

/-- One iteration of the `for key, val in self.ctx._attributes` loop in
`App.process_attributes` (pynsot/app.py), threading the dict and the
single per-call `multi_replaced` flag, mirroring the source branch for
branch. -/
def applyEdit (action : Option AttrAction) (multi : Bool)
    (st : Attrs × Bool) (key val : String) : Except PyErr (Attrs × Bool) :=
  let attrs := st.1
  let multi_replaced := st.2
  if multi then
    match action with
    | some .add =>
      match dictGet attrs key with
      | none => .ok (dictSet attrs key (.vlist [val]), multi_replaced)
      | some cur =>
        if pyIn val cur then .ok (attrs, multi_replaced)
        else
          match asList cur with
          | .error e => .error e
          | .ok l => .ok (dictSet attrs key (.vlist (l ++ [val])), multi_replaced)
    | some .replace =>
      let reset := (dictGet attrs key).isSome && !multi_replaced
      let attrs := if reset then dictSet attrs key (.vlist []) else attrs
      let multi_replaced := if reset then true else multi_replaced
      match pyGetItem attrs key with
      | .error e => .error e
      | .ok cur =>
        if pyIn val cur then .ok (attrs, multi_replaced)
        else
          match asList cur with
          | .error e => .error e
          | .ok l => .ok (dictSet attrs key (.vlist (l ++ [val])), multi_replaced)
    | some .delete =>
      match pyGetItem attrs key with
      | .error e => .error e
      | .ok cur =>
        let removedE : Except PyErr Attrs :=
          if pyIn val cur then
            match asList cur with
            | .error e => .error e
            | .ok l => .ok (dictSet attrs key (.vlist (listErase l val)))
          else .ok attrs
        match removedE with
        | .error e => .error e
        | .ok attrs =>
          if val.isEmpty then .ok (dictPop attrs key, multi_replaced)
          else
            match pyGetItem attrs key with
            | .error e => .error e
            | .ok cur2 =>
              if pyFalsy cur2 then .ok (dictPop attrs key, multi_replaced)
              else .ok (attrs, multi_replaced)
    | none => .ok (attrs, multi_replaced)
  else
    match action with
    | some .add => .ok (dictSet attrs key (.scalar val), multi_replaced)
    | some .replace => .ok (dictSet attrs key (.scalar val), multi_replaced)
    | some .delete => .ok (dictPop attrs key, multi_replaced)
    | none => .ok (attrs, multi_replaced)

/-- The edit loop of `App.process_attributes`, folding `applyEdit` over
the edits with the `(attrs, multi_replaced)` state. -/
def processAttrsGo (action : Option AttrAction) (multi : Bool)
    (edits : List (String × String)) (st : Attrs × Bool) : Except PyErr (Attrs × Bool) :=
  match edits with
  | [] => .ok st
  | (key, val) :: rest =>
    match applyEdit action multi st key val with
    | .error e => .error e
    | .ok st' => processAttrsGo action multi rest st'

/-- `App.process_attributes(attrs, action, multi)` from pynsot/app.py.
`edits` is the `self.ctx._attributes` list of (key, value) pairs; the
`multi_replaced` flag starts out `False` for the call. -/
def process_attributes (attrs : Attrs) (edits : List (String × String))
    (action : Option AttrAction) (multi : Bool) : Except PyErr Attrs :=
  match processAttrsGo action multi edits (attrs, false) with
  | .error e => .error e
  | .ok st => .ok st.1

/-! ## The API client and the site-scoping rebase (`App.rebase`) -/

/-- The slice of the slumber API client state that `App.rebase` touches:
`default_site` (set from the user's config or at the CLI) and the
`_store` base URL. -/
structure ApiClient where
  default_site : Option Nat
  base_url : String
deriving DecidableEq, Repr

/-- The slice of the `App` context object driving `rebase`:
`resource_name` is the invoked subcommand, `site_id` and `rebase_done`
are initialised to `None` / `False` in `App.__init__`. -/
structure AppState where
  resource_name : String
  site_id : Option Nat
  rebase_done : Bool
  api : ApiClient
deriving DecidableEq, Repr

/-- The slice of the query-argument dict that `rebase` reads: its
(optional) `site_id` entry.  `rebase` pops this key; the other entries
are untouched and not modelled.  Bulk queries pass a list and `rebase`
uses its first element; we model the single-dict case. -/
structure RebaseData where
  site_id : Option Nat
deriving DecidableEq, Repr

/-- The `App` state fresh out of `App.__init__`: `site_id = None` and
`rebase_done = False`. -/
def initApp (resource_name : String) (api : ApiClient) : AppState :=
  { resource_name := resource_name, site_id := none, rebase_done := false, api := api }

/-- `App.rebase(data)` from pynsot/app.py.  Returns the updated app state
together with the (possibly popped) data.  Faithful to the source: an
early return when `rebase_done` is set; otherwise pop `site_id` from the
args, fall back to the client default when the resource is not `sites`,
append `/sites/<id>` to the base URL when a site id was found, and mark
the rebase as done unconditionally. -/
def rebase (st : AppState) (data : RebaseData) : AppState × RebaseData :=
  if st.rebase_done then (st, data)
  else
    let site_id0 := data.site_id
    let data' : RebaseData := { site_id := none }
    let site_id :=
      if site_id0.isNone && (st.resource_name != "sites") then st.api.default_site
      else site_id0
    let st' :=
      match site_id with
      | some s =>
        { st with site_id := some s,
                  api := { st.api with base_url := st.api.base_url ++ "/sites/" ++ toString s } }
      | none => st
    ({ st' with rebase_done := true }, data')

/-- A sequence of `rebase` invocations within one logical operation, each
with its own query-argument dict (the returned popped data of one call is
not fed to the next; each call site passes its own dict). -/
def rebaseSeq (st : AppState) : List RebaseData → AppState
  | [] => st
  | d :: ds => rebaseSeq (rebase st d).1 ds

/-! ## Natural-key lookup (`App.get_single_object`) -/

/-- The slumber HTTP errors caught by pynsot: `HTTP_ERRORS =
(HttpClientError, HttpServerError)` in pynsot/app.py. -/
inductive HttpErr where
  | clientError
  | serverError
deriving DecidableEq, Repr

/-- An object returned by the API: a dict with a numeric `id` plus its
other fields (attributes and scalar fields modelled separately so the
update payload can be stated). -/
structure ApiObject where
  id : Nat
  attributes : Attrs
  fields : List (String × String)
deriving DecidableEq, Repr

/-- A response to a lookup GET, as `App.get_single_object` distinguishes
them: either a list-style envelope carrying a top-level `count` field and
(after `pynsot.util.get_result` unwrapping, whose wire envelope belongs to
the external NSoT server) the list of matching objects, or a detail-shaped
single-object response with no `count` field at all (e.g. from
/api/networks/:id/parent/). -/
inductive Payload where
  | listResp (count : Nat) (results : List ApiObject)
  | detailResp (obj : ApiObject)
deriving DecidableEq, Repr

/-- `NATURAL_KEYS` from pynsot/app.py: the per-resource natural-key field
names; `NATURAL_KEYS.get(resource_name, [])`. -/
def NATURAL_KEYS (resource_name : String) : List String :=
  if resource_name = "devices" then ["hostname"]
  else if resource_name = "networks" then ["cidr"]
  else if resource_name = "attributes" then ["name", "resource_name"]
  else if resource_name = "interfaces" then ["name", "device"]
  else []

/-- Python `data.get(k)` on the query-parameter dict: the stored value, or
`None` when the key is absent (a stored `None` and an absent key are both
`none`). -/
def pyDictGet (data : List (String × Option String)) (k : String) : Option String :=
  match data with
  | [] => none
  | (k', v) :: rest => if k' = k then v else pyDictGet rest k

/-- The `params` dict built by `App.get_single_object`: `{'limit': 1}`
plus each natural-key field whose value is present (not `None`) in the
input data.  Values are modelled as strings. -/
def lookupParams (natural_keys : List String)
    (data : List (String × Option String)) : List (String × String) :=
  ("limit", "1") ::
    natural_keys.filterMap fun k =>
      match pyDictGet data k with
      | some v => some (k, v)
      | none => none

/-- `App.get_single_object(data)` from pynsot/app.py.  `trLookup` is the
transport: the `resource.get(**params)` call, either raising an HTTP
client/server error or returning a payload.  Mirrors the source: a raised
HTTP error returns `None`; a response without a `count` field is returned
raw; `count > 1` returns `None`; otherwise the unwrapped result list
yields its first element, or `None` when empty (`IndexError`). -/
def get_single_object (natural_keys : List String)
    (data : List (String × Option String))
    (trLookup : List (String × String) → Except HttpErr Payload) : Option ApiObject :=
  let params := lookupParams natural_keys data
  match trLookup params with
  | .error _ => none
  | .ok r =>
    match r with
    | .detailResp obj => some obj
    | .listResp count results =>
      if count > 1 then none
      else
        match results with
        | [] => none
        | obj :: _ => some obj

/-! ## Update (`App.update`) -/

/-- Python truthiness of the popped `id` argument (`if obj_id:`): absent
(`None`) and `0` are falsy. -/
def pyTruthy : Option Nat → Bool
  | none => false
  | some n => n != 0

/-- The argument dict of `App.update` after CLI parsing, split by how
`update` consumes it: the popped `id` and `attr_action`, the `multi`
flag, whether an `attributes` key is present, the `site_id` (popped by
`rebase`), and the remaining scalar CLI parameters. -/
structure UpdateData where
  id : Option Nat
  site_id : Option Nat
  attr_action : Option AttrAction
  multi : Bool
  has_attributes : Bool
  fields : List (String × Option String)

/-- Python `payload[key] = val` on the string-field part of the payload. -/
def setField (fields : List (String × String)) (k v : String) : List (String × String) :=
  match fields with
  | [] => [(k, v)]
  | (k', v') :: rest => if k' = k then (k', v) :: rest else (k', v') :: setField rest k v

/-- The body finally sent by `self.resource(obj_id).put(payload)`: the
fetched object minus its `id`, with attributes reconciled and non-null
CLI parameters overwritten. -/
structure PutPayload where
  attributes : Attrs
  fields : List (String × String)
deriving DecidableEq, Repr

/-- The observable outcome of one `App.update` invocation. -/
inductive UpdateOutcome where
  /-- `handle_error` called with a raised HTTP error: formats the server
  message and exits via `ctx.exit` before any PUT. -/
  | errorExit_http (e : HttpErr)
  /-- `handle_error` called with a plain message (the lookup yielded no
  object): prints and exits via `ctx.exit` before any PUT. -/
  | errorExit_msg (msg : String)
  /-- An uncaught Python exception escaping `update` (e.g. a `KeyError`
  out of `process_attributes`). -/
  | raised (e : PyErr)
  /-- The PUT was issued with this id and payload. -/
  | putIssued (objId : Nat) (payload : PutPayload)
deriving DecidableEq, Repr

/-- The result of `App.update`: its outcome, the number of mutating
(PUT/POST/DELETE) calls issued on the transport, and the app state after
the internal `rebase`. -/
structure UpdateResult where
  outcome : UpdateOutcome
  mutating_calls : Nat
  final : AppState
deriving Repr

/-- `App.update(data)` from pynsot/app.py.  `trGetById` models
`self.resource(obj_id).get()` (whose detail response unwraps to the
object itself) and `trLookup` the natural-key lookup GET inside
`get_single_object`.  Mirrors the source: pop `id` and `attr_action`,
read `multi`, rebase, fetch the existing object by id when `obj_id` is
truthy and by natural key otherwise; a raised HTTP error or a `None`
object reaches `handle_error`, which exits before any PUT; otherwise the
payload is the fetched object without its `id`, with `attributes`
reconciled through `process_attributes` and every non-null remaining CLI
parameter overwritten, and exactly one PUT is issued. -/
def update (trGetById : Nat → Except HttpErr ApiObject)
    (trLookup : List (String × String) → Except HttpErr Payload)
    (st : AppState) (edits : List (String × String))
    (data : UpdateData) : UpdateResult :=
  let obj_id := data.id
  let attr_action := data.attr_action
  let multi := data.multi
  let st := (rebase st { site_id := data.site_id }).1
  let objE : Except HttpErr (Option ApiObject) :=
    if pyTruthy obj_id then
      match trGetById (obj_id.getD 0) with
      | .error e => .error e
      | .ok obj => .ok (some obj)
    else
      .ok (get_single_object (NATURAL_KEYS st.resource_name) data.fields trLookup)
  match objE with
  | .error e =>
    { outcome := .errorExit_http e, mutating_calls := 0, final := st }
  | .ok none =>
    { outcome := .errorExit_msg "Update failed. Try again with --verbose for more info.",
      mutating_calls := 0, final := st }
  | .ok (some obj) =>
    let objId := obj.id
    let mergedFields :=
      data.fields.foldl
        (fun acc p =>
          match p.2 with
          | some v => setField acc p.1 v
          | none => acc)
        obj.fields
    let attrsE :=
      if data.has_attributes then process_attributes obj.attributes edits attr_action multi
      else .ok obj.attributes
    match attrsE with
    | .error e => { outcome := .raised e, mutating_calls := 0, final := st }
    | .ok newAttrs =>
      { outcome := .putIssued objId { attributes := newAttrs, fields := mergedFields },
        mutating_calls := 1, final := st }

/-! ## The site-id option callback
(`pynsot.commands.callbacks.process_site_id`) -/

/-- A click usage error raised while processing command options. -/
inductive CliError where
  | usageError (msg : String)
deriving DecidableEq, Repr

/-- `process_site_id(ctx, param, value)` from
pynsot/commands/callbacks.py: when no `-s` or `--site-id` was provided, fall
back to the client's `default_site`, or raise
`click.UsageError('Missing option "-s" / "--site-id".')` when that is
`None` too; when a value was provided, it also becomes the client's
`default_site`.  Returns the resolved site id and the client's (possibly
updated) `default_site`. -/
def process_site_id (default_site : Option Nat) (value : Option Nat) :
    Except CliError (Nat × Option Nat) :=
  match value with
  | none =>
    match default_site with
    | none => .error (.usageError "Missing option \"-s\" / \"--site-id\".")
    | some d => .ok (d, some d)
  | some v => .ok (v, some v)

/-- Modelled from the spec: the click framework (vendored under
pynsot/vendor, whose sources are not in the tree) invokes the option
callbacks — `process_site_id` for `-s` or `--site-id` on every site-scoped
(non-`sites`) subcommand — before the command body runs, and a raised
`UsageError` aborts the invocation so the body never executes; the spec
states the missing-site-scope failure "must be surfaced before attempting
any lookup".  `body` is the command body, given the resolved site id and
the updated client default, returning its result together with the number
of HTTP calls it makes on the transport.  The second component of the
result is the total number of HTTP transport calls of the invocation
(`process_site_id` itself performs none). -/
def invoke_site_scoped {α : Type} (default_site : Option Nat) (site_id_value : Option Nat)
    (body : Nat → Option Nat → α × Nat) : Except CliError α × Nat :=
  match process_site_id default_site site_id_value with
  | .error e => (.error e, 0)
  | .ok (sid, newDefault) =>
    let r := body sid newDefault
    (.ok r.1, r.2)

/-! ## Auxiliary predicates -/

/-- Whether a stored attribute value is list-valued. -/
def isVlist : AttrVal → Bool
  | .vlist _ => true
  | .scalar _ => false

/-- The documented input domain for a `multi = true` call: every stored
attribute value is a list (spec: a multi attribute's value is always a
list). -/
def isMultiDomain (attrs : Attrs) : Bool :=
  attrs.all fun p => isVlist p.2

/-- Whether an `Except` computation returned normally. -/
def isOkB {ε α : Type} (x : Except ε α) : Bool :=
  match x with
  | .ok _ => true
  | .error _ => false

/-! ## Helper lemmas -/

theorem rebase_done_after (st : AppState) (d : RebaseData) :
    (rebase st d).1.rebase_done = true := by
  by_cases h : st.rebase_done
  · simp [rebase, h]
  · simp only [Bool.not_eq_true] at h
    simp [rebase, h]

theorem rebase_noop_of_done (st : AppState) (d : RebaseData)
    (h : st.rebase_done = true) : rebase st d = (st, d) := by
  simp [rebase, h]

theorem rebaseSeq_of_done (st : AppState) (h : st.rebase_done = true) :
    ∀ ds : List RebaseData, rebaseSeq st ds = st := by
  intro ds
  induction ds with
  | nil => rfl
  | cons d ds ih =>
    rw [rebaseSeq, rebase_noop_of_done st d h]
    exact ih

/-! ## Claim theorems -/

/-- C5 (confirmed): rebase is idempotent per invocation.  Any sequence of
two or more `rebase` calls within one logical operation (each with its own
query args) produces the same state as the first call alone, and when the
first call finds a site id it appends the `/sites/<id>` segment to the
base path exactly once; once the `done` flag is set the base path is never
recomputed or re-appended. -/
theorem C5_rebase_idempotent :
    (∀ (st : AppState) (d : RebaseData) (ds : List RebaseData),
        rebaseSeq st (d :: ds) = rebaseSeq st [d]) ∧
    (∀ (st : AppState) (d : RebaseData) (ds : List RebaseData) (s : Nat),
        st.rebase_done = false → d.site_id = some s →
        (rebaseSeq st (d :: ds)).api.base_url
          = st.api.base_url ++ "/sites/" ++ toString s) := by
  constructor
  · intro st d ds
    show rebaseSeq (rebase st d).1 ds = rebaseSeq (rebase st d).1 []
    rw [rebaseSeq_of_done _ (rebase_done_after st d) ds,
        rebaseSeq_of_done _ (rebase_done_after st d) []]
  · intro st d ds s h hs
    show (rebaseSeq (rebase st d).1 ds).api.base_url = _
    rw [rebaseSeq_of_done _ (rebase_done_after st d) ds]
    simp [rebase, h, hs]

/-- Witness for C5 at a concrete state: a second rebase call changes
nothing, and the base URL carries exactly one `/sites/1` segment. -/
theorem C5_witness :
    rebaseSeq (initApp "devices" ⟨none, "http://localhost/api"⟩) [⟨some 1⟩, ⟨some 2⟩]
      = rebaseSeq (initApp "devices" ⟨none, "http://localhost/api"⟩) [⟨some 1⟩] ∧
    (rebaseSeq (initApp "devices" ⟨none, "http://localhost/api"⟩)
        [⟨some 1⟩, ⟨some 2⟩]).api.base_url
      = "http://localhost/api" ++ "/sites/" ++ toString 1 :=
  ⟨C5_rebase_idempotent.1 _ _ _, C5_rebase_idempotent.2 _ _ _ 1 rfl rfl⟩

/-- C10 (confirmed): the first `rebase` call sets `rebase_done`
unconditionally — even when no site id was resolved from the args or the
client default — and any later call in the same invocation returns
immediately, leaving the stored site id, the base URL (indeed the whole
state) and even its own args untouched, whatever site id those args
carry. -/
theorem C10_first_rebase_sets_done_unconditionally :
    (∀ (st : AppState) (d : RebaseData), (rebase st d).1.rebase_done = true) ∧
    (∀ (st : AppState) (d : RebaseData),
        st.rebase_done = true → rebase st d = (st, d)) ∧
    (∀ (st : AppState) (d : RebaseData),
        st.rebase_done = false → d.site_id = none → st.api.default_site = none →
        (rebase st d).1 = { st with rebase_done := true }) := by
  refine ⟨rebase_done_after, rebase_noop_of_done, ?_⟩
  intro st d h hd hds
  by_cases hr : st.resource_name = "sites" <;> simp [rebase, h, hd, hds, hr]

/-- Witness for C10 at concrete states: a done state is returned as-is
even with an explicit site id in the args, and a first call with nothing
to resolve only flips the flag. -/
theorem C10_witness :
    rebase { resource_name := "devices", site_id := none, rebase_done := true,
             api := ⟨none, "u"⟩ } ⟨some 7⟩
      = ({ resource_name := "devices", site_id := none, rebase_done := true,
           api := ⟨none, "u"⟩ }, ⟨some 7⟩) ∧
    (rebase (initApp "devices" ⟨none, "u"⟩) ⟨none⟩).1
      = { initApp "devices" ⟨none, "u"⟩ with rebase_done := true } :=
  ⟨C10_first_rebase_sets_done_unconditionally.2.1 _ _ rfl,
   C10_first_rebase_sets_done_unconditionally.2.2 _ _ rfl rfl rfl⟩

/-- C2 (confirmed): with no explicit site id among the input parameters
and no configured default site on the client, a site-scoped command
invocation fails with the missing-site-scope usage error raised by the
`process_site_id` option callback, before the command body runs — so zero
HTTP calls are made on the transport, whatever the body would have
done. -/
theorem C2_missing_site_scope_fails_fast {α : Type}
    (body : Nat → Option Nat → α × Nat) :
    invoke_site_scoped none none body
      = (.error (.usageError "Missing option \"-s\" / \"--site-id\"."), 0) := rfl

/-- C6 (confirmed): when the lookup GET itself raises an HTTP client or
server error, `get_single_object` yields the no-object outcome `None`;
the exception is swallowed, not propagated. -/
theorem C6_http_error_yields_none (e : HttpErr) (natural_keys : List String)
    (data : List (String × Option String)) :
    get_single_object natural_keys data (fun _ => .error e) = none := rfl

/-- C8 (confirmed): a response with no `count` field (a detail-shaped
single-object response) is returned raw by `get_single_object`, without
being unwrapped as a list. -/
theorem C8_detail_response_unchanged (natural_keys : List String)
    (data : List (String × Option String)) (obj : ApiObject) :
    get_single_object natural_keys data (fun _ => .ok (.detailResp obj)) = some obj := rfl

/-- C7 (confirmed): for a lookup response carrying `count <= 1`,
resolution returns the single object of the unwrapped result list
(including its numeric id), and yields `None` when that list is empty. -/
theorem C7_count_le_one_resolution :
    (∀ (natural_keys : List String) (data : List (String × Option String))
        (c : Nat) (obj : ApiObject), c ≤ 1 →
        get_single_object natural_keys data (fun _ => .ok (.listResp c [obj]))
          = some obj) ∧
    (∀ (natural_keys : List String) (data : List (String × Option String))
        (c : Nat), c ≤ 1 →
        get_single_object natural_keys data (fun _ => .ok (.listResp c []))
          = none) := by
  constructor
  · intro nks data c obj h
    show (if c > 1 then none else some obj) = some obj
    rw [if_neg (by omega)]
  · intro nks data c h
    show (if c > 1 then none else none) = none
    rw [if_neg (by omega)]

/-- Witness for C7: the spec scenario — `count = 1` with one result of
id 42 resolves to that object; an empty result list resolves to none. -/
theorem C7_witness :
    get_single_object ["hostname"] [("hostname", some "foo")]
        (fun _ => .ok (.listResp 1 [⟨42, [], []⟩])) = some ⟨42, [], []⟩ ∧
    get_single_object ["hostname"] [("hostname", some "foo")]
        (fun _ => .ok (.listResp 0 [])) = none :=
  ⟨C7_count_le_one_resolution.1 _ _ 1 _ (by decide),
   C7_count_le_one_resolution.2 _ _ 0 (by decide)⟩

/-- C4 (confirmed): a lookup response with `count > 1` makes resolution
fail — `get_single_object` yields no object rather than silently picking
one — and an `update` driven by such a natural-key lookup exits through
`handle_error` with zero mutating (PUT) calls on the transport. -/
theorem C4_ambiguous_lookup_no_mutation
    (trGetById : Nat → Except HttpErr ApiObject) (st : AppState)
    (edits : List (String × String)) (data : UpdateData)
    (c : Nat) (results : List ApiObject)
    (hid : pyTruthy data.id = false) (hc : 1 < c) :
    get_single_object (NATURAL_KEYS st.resource_name) data.fields
        (fun _ => .ok (.listResp c results)) = none ∧
    (update trGetById (fun _ => .ok (.listResp c results)) st edits data).mutating_calls
        = 0 ∧
    (update trGetById (fun _ => .ok (.listResp c results)) st edits data).outcome
        = .errorExit_msg "Update failed. Try again with --verbose for more info." := by
  have hgso : ∀ (nks : List String) (d : List (String × Option String)),
      get_single_object nks d (fun _ => .ok (.listResp c results)) = none := by
    intro nks d
    show (if c > 1 then none
          else match results with | [] => none | obj :: _ => some obj) = none
    rw [if_pos hc]
  refine ⟨hgso _ _, ?_, ?_⟩ <;> simp [update, hid, hgso]

/-- Witness for C4: a concrete ambiguous lookup (`count = 2`) aborts a
natural-key update with zero mutating calls. -/
theorem C4_witness :
    get_single_object (NATURAL_KEYS "devices") [("hostname", some "foo")]
        (fun _ => .ok (.listResp 2 [⟨1, [], []⟩, ⟨2, [], []⟩])) = none ∧
    (update (fun _ => .error .clientError)
        (fun _ => .ok (.listResp 2 [⟨1, [], []⟩, ⟨2, [], []⟩]))
        (initApp "devices" ⟨none, "u"⟩) []
        { id := none, site_id := none, attr_action := none, multi := false,
          has_attributes := false,
          fields := [("hostname", some "foo")] }).mutating_calls = 0 :=
  ⟨(C4_ambiguous_lookup_no_mutation (fun _ => .error .clientError)
      (initApp "devices" ⟨none, "u"⟩) []
      { id := none, site_id := none, attr_action := none, multi := false,
        has_attributes := false, fields := [("hostname", some "foo")] }
      2 [⟨1, [], []⟩, ⟨2, [], []⟩] rfl (by decide)).1,
   (C4_ambiguous_lookup_no_mutation (fun _ => .error .clientError)
      (initApp "devices" ⟨none, "u"⟩) []
      { id := none, site_id := none, attr_action := none, multi := false,
        has_attributes := false, fields := [("hostname", some "foo")] }
      2 [⟨1, [], []⟩, ⟨2, [], []⟩] rfl (by decide)).2.1⟩

/-- C9 (confirmed): scalar add and scalar replace are the same operation —
for every existing mapping, key and value, the single edit `(key, value)`
with action `add` and `multi = false` produces exactly the mapping that
action `replace` produces (both branches execute `attrs[key] = value`). -/
theorem C9_scalar_add_replace_equivalent (attrs : Attrs) (k v : String) :
    process_attributes attrs [(k, v)] (some .add) false
      = process_attributes attrs [(k, v)] (some .replace) false := rfl

/-- C1 (counterexample): the "reset tracked per key" part of the claim is
false.  `multi_replaced` is a single per-call flag, so with existing
mapping with two keys both present and one replace edit per key, only the
first key's list is reset; the second keeps its previous contents and the
edit appends — the result differs from the per-key-reset expectation. -/
theorem C1_counterexample :
    process_attributes [("k1", .vlist ["z"]), ("k2", .vlist ["w"])]
        [("k1", "a"), ("k2", "b")] (some .replace) true
      = .ok [("k1", .vlist ["a"]), ("k2", .vlist ["w", "b"])] ∧
    ([("k1", AttrVal.vlist ["a"]), ("k2", AttrVal.vlist ["w", "b"])] : Attrs)
      ≠ [("k1", AttrVal.vlist ["a"]), ("k2", AttrVal.vlist ["b"])] :=
  ⟨rfl, by decide⟩

/-- C1 (amended): with `action = replace` and `multi = true`, the reset
of a key's list happens exactly once per call — at the first edit whose
key is present in the mapping — and every later edit (for that key or any
other) appends its value, if not a duplicate, without resetting.  With
existing mapping of `k` to `z` and edits `(k, a), (k, b)` the result maps
`k` to `[a, b]`; with two distinct keys both present, only the first
edit's key is reset and the second key keeps its prior contents; and once
the per-call flag is set, a replace edit for a present key only ever
appends. -/
theorem C1_amended_replace_resets_once_per_call :
    (∀ k z a b : String, a ≠ b →
        process_attributes [(k, .vlist [z])] [(k, a), (k, b)] (some .replace) true
          = .ok [(k, .vlist [a, b])]) ∧
    (∀ k1 k2 z w a b : String, k1 ≠ k2 → b ≠ w →
        process_attributes [(k1, .vlist [z]), (k2, .vlist [w])]
            [(k1, a), (k2, b)] (some .replace) true
          = .ok [(k1, .vlist [a]), (k2, .vlist [w, b])]) ∧
    (∀ (attrs : Attrs) (k v : String) (l : List String),
        dictGet attrs k = some (.vlist l) →
        applyEdit (some .replace) true (attrs, true) k v
          = .ok ((if listHas l v then attrs
                  else dictSet attrs k (.vlist (l ++ [v]))), true)) := by
  refine ⟨?_, ?_, ?_⟩
  · intro k z a b h
    simp [process_attributes, processAttrsGo, applyEdit, dictGet, dictSet,
          pyGetItem, pyIn, listHas, asList, h]
  · intro k1 k2 z w a b h1 h2
    have h2' : ¬ (w = b) := fun hh => h2 hh.symm
    simp [process_attributes, processAttrsGo, applyEdit, dictGet, dictSet,
          pyGetItem, pyIn, listHas, asList, h1, h2']
  · intro attrs k v l h
    by_cases hv : listHas l v <;>
      simp [applyEdit, pyGetItem, pyIn, asList, h, hv]

/-- Witness for C1 at concrete inputs: the single-key spec scenario, the
two-key once-per-call behaviour, and an append-only step under a set
flag. -/
theorem C1_amended_witness :
    process_attributes [("k", .vlist ["z"])] [("k", "a"), ("k", "b")]
        (some .replace) true = .ok [("k", .vlist ["a", "b"])] ∧
    process_attributes [("k1", .vlist ["z"]), ("k2", .vlist ["w"])]
        [("k1", "a"), ("k2", "b")] (some .replace) true
      = .ok [("k1", .vlist ["a"]), ("k2", .vlist ["w", "b"])] ∧
    applyEdit (some .replace) true ([("t", .vlist ["x"])], true) "t" "y"
      = .ok ((if listHas ["x"] "y" then [("t", AttrVal.vlist ["x"])]
              else dictSet [("t", .vlist ["x"])] "t" (.vlist (["x"] ++ ["y"]))), true) :=
  ⟨C1_amended_replace_resets_once_per_call.1 "k" "z" "a" "b" (by decide),
   C1_amended_replace_resets_once_per_call.2.1 "k1" "k2" "z" "w" "a" "b"
     (by decide) (by decide),
   C1_amended_replace_resets_once_per_call.2.2 _ "t" "y" ["x"] rfl⟩

theorem scalar_applyEdit_ok (action : Option AttrAction) (st : Attrs × Bool)
    (k v : String) : ∃ st', applyEdit action false st k v = .ok st' := by
  cases action with
  | none => exact ⟨_, rfl⟩
  | some a => cases a <;> exact ⟨_, rfl⟩

theorem scalar_processAttrsGo_ok (edits : List (String × String)) :
    ∀ (action : Option AttrAction) (st : Attrs × Bool),
      ∃ st', processAttrsGo action false edits st = .ok st' := by
  induction edits with
  | nil => intro action st; exact ⟨st, rfl⟩
  | cons e rest ih =>
    intro action st
    obtain ⟨k, v⟩ := e
    obtain ⟨st1, h1⟩ := scalar_applyEdit_ok action st k v
    obtain ⟨st2, h2⟩ := ih action st1
    refine ⟨st2, ?_⟩
    rw [processAttrsGo, h1]
    exact h2

theorem multiDomain_dictGet (attrs : Attrs) (k : String)
    (h : isMultiDomain attrs = true) :
    ∀ v, dictGet attrs k = some v → isVlist v = true := by
  induction attrs with
  | nil => intro v hv; simp [dictGet] at hv
  | cons p rest ih =>
    obtain ⟨k', v'⟩ := p
    rw [isMultiDomain, List.all_cons, Bool.and_eq_true] at h
    intro v hv
    rw [dictGet] at hv
    by_cases hk : k' = k
    · rw [if_pos hk] at hv
      cases hv
      exact h.1
    · rw [if_neg hk] at hv
      exact ih h.2 v hv

theorem isMultiDomain_dictSet (attrs : Attrs) (k : String) (l : List String)
    (h : isMultiDomain attrs = true) :
    isMultiDomain (dictSet attrs k (.vlist l)) = true := by
  induction attrs with
  | nil => simp [dictSet, isMultiDomain, isVlist]
  | cons p rest ih =>
    obtain ⟨k', v'⟩ := p
    rw [isMultiDomain, List.all_cons, Bool.and_eq_true] at h
    by_cases hk : k' = k
    · rw [dictSet, if_pos hk, isMultiDomain, List.all_cons, Bool.and_eq_true]
      exact ⟨rfl, h.2⟩
    · rw [dictSet, if_neg hk, isMultiDomain, List.all_cons, Bool.and_eq_true]
      exact ⟨h.1, ih h.2⟩

theorem multi_add_applyEdit_ok (attrs : Attrs) (flag : Bool) (k v : String)
    (h : isMultiDomain attrs = true) :
    ∃ attrs', applyEdit (some .add) true (attrs, flag) k v = .ok (attrs', flag)
      ∧ isMultiDomain attrs' = true := by
  cases hget : dictGet attrs k with
  | none =>
    exact ⟨dictSet attrs k (.vlist [v]), by simp [applyEdit, hget],
      isMultiDomain_dictSet attrs k [v] h⟩
  | some cur =>
    have hv := multiDomain_dictGet attrs k h cur hget
    cases cur with
    | scalar s => simp [isVlist] at hv
    | vlist l =>
      by_cases hin : pyIn v (.vlist l)
      · exact ⟨attrs, by simp [applyEdit, hget, hin], h⟩
      · exact ⟨dictSet attrs k (.vlist (l ++ [v])),
          by simp [applyEdit, asList, hget, hin],
          isMultiDomain_dictSet attrs k (l ++ [v]) h⟩

theorem multi_add_processAttrsGo_ok (edits : List (String × String)) :
    ∀ (attrs : Attrs) (flag : Bool), isMultiDomain attrs = true →
      ∃ attrs', processAttrsGo (some .add) true edits (attrs, flag) = .ok (attrs', flag)
        ∧ isMultiDomain attrs' = true := by
  induction edits with
  | nil => intro attrs flag h; exact ⟨attrs, rfl, h⟩
  | cons e rest ih =>
    intro attrs flag h
    obtain ⟨k, v⟩ := e
    obtain ⟨attrs1, h1, hd1⟩ := multi_add_applyEdit_ok attrs flag k v h
    obtain ⟨attrs2, h2, hd2⟩ := ih attrs1 flag hd1
    refine ⟨attrs2, ?_, hd2⟩
    rw [processAttrsGo, h1]
    exact h2

/-- C3 (amended): the reconciler is total on scalar (`multi = false`)
calls for every action, and total on multi `add` calls over the
documented domain (all stored values lists); but a multi `replace` or
multi `delete` edit naming a key absent from the existing mapping raises
`KeyError` — `attrs[key]` is evaluated before any guard — so the function
is not total there, contrary to the claim. -/
theorem C3_amended_totality :
    (∀ (attrs : Attrs) (edits : List (String × String)) (action : Option AttrAction),
        isOkB (process_attributes attrs edits action false) = true) ∧
    (∀ (attrs : Attrs) (edits : List (String × String)),
        isMultiDomain attrs = true →
        isOkB (process_attributes attrs edits (some .add) true) = true) ∧
    (∀ (attrs : Attrs) (k v : String), dictGet attrs k = none →
        process_attributes attrs [(k, v)] (some .replace) true
          = .error (.keyError k)) ∧
    (∀ (attrs : Attrs) (k v : String), dictGet attrs k = none →
        process_attributes attrs [(k, v)] (some .delete) true
          = .error (.keyError k)) := by
  refine ⟨?_, ?_, ?_, ?_⟩
  · intro attrs edits action
    obtain ⟨st', h⟩ := scalar_processAttrsGo_ok edits action (attrs, false)
    rw [process_attributes, h]
    rfl
  · intro attrs edits h
    obtain ⟨attrs', h', _⟩ := multi_add_processAttrsGo_ok edits attrs false h
    rw [process_attributes, h']
    rfl
  · intro attrs k v h
    simp [process_attributes, processAttrsGo, applyEdit, pyGetItem, h]
  · intro attrs k v h
    simp [process_attributes, processAttrsGo, applyEdit, pyGetItem, h]

/-- C3 (counterexample): a multi `delete` (and likewise a multi `replace`)
edit naming a key absent from the existing mapping raises `KeyError`, so
the reconciler is not total over the domain the claim describes. -/
theorem C3_counterexample :
    process_attributes [] [("env", "prod")] (some .delete) true
      = .error (.keyError "env") ∧
    process_attributes [] [("env", "prod")] (some .replace) true
      = .error (.keyError "env") :=
  ⟨rfl, rfl⟩

/-- Witness for C3 at concrete inputs: a scalar replace and a multi add
return normally; multi replace and delete on absent keys raise. -/
theorem C3_amended_witness :
    isOkB (process_attributes [("o", .scalar "x")] [("o", "y")]
        (some .replace) false) = true ∧
    isOkB (process_attributes [("t", .vlist ["x"])] [("t", "y")]
        (some .add) true) = true ∧
    process_attributes [("a", .vlist ["1"])] [("b", "2")] (some .replace) true
      = .error (.keyError "b") ∧
    process_attributes [] [("c", "3")] (some .delete) true
      = .error (.keyError "c") :=
  ⟨C3_amended_totality.1 _ _ _,
   C3_amended_totality.2.1 _ _ rfl,
   C3_amended_totality.2.2.1 _ "b" "2" rfl,
   C3_amended_totality.2.2.2 _ "c" "3" rfl⟩

end Pynsot
